import Mathlib

/-!
Formal model of the incremental pagination and parent/child record-fetch
core of the tap-netsuite-rest connector.

The definitions below are a shallow embedding of the Python source:

* `tap_netsuite/client.py`   — `NetsuiteStream.validate_response`,
  `NetsuiteStream.post_process`;
* `tap_netsuite/streams.py`  — `NetsuiteRESTBaseStream.get_next_page_token`,
  `NetsuiteRESTBaseStream.get_url_params`,
  `NetsuiteRESTBaseStream.get_records`, and the per-entity stream classes;
* `tap_netsuite/tap.py`      — `TapNetsuite.discover_streams`.

Python dicts are modelled as insertion-ordered association lists, JSON
values as the inductive `JVal`, and machine-level collaborators (the HTTP
layer, the singer-sdk cursor bookkeeping) as explicit arguments.
-/

namespace TapNetsuite

/-- JSON-like values carried in records: strings, integers, booleans,
arrays and objects (objects as insertion-ordered association lists,
exactly the order a Python dict preserves). -/
inductive JVal where
  | str : String → JVal
  | num : Int → JVal
  | bool : Bool → JVal
  | arr : List JVal → JVal
  | obj : List (String × JVal) → JVal

/-- A record (a Python dict) is an insertion-ordered association list of
field name to value; keys are unique. -/
abbrev Record := List (String × JVal)

/-- Python `k.startswith(p)`: code-point prefix test on strings. -/
def strStarts (s p : String) : Bool :=
  List.isPrefixOf p.data s.data

/-- Python dict lookup `d[k]` (as an option): first (unique) entry with the
given key, if any. -/
def lookupKey {β : Type} (k : String) : List (String × β) → Option β
  | [] => none
  | (k0, v) :: rest => if k0 = k then some v else lookupKey k rest

/-- Python dict assignment `row[k] = v`: when the key is present the value
is replaced in place (CPython keeps the key's insertion position);
otherwise the new entry is appended at the end. -/
def setKey : Record → String → JVal → Record
  | [], k, v => [(k, v)]
  | (k0, v0) :: rest, k, v =>
      if k0 = k then (k, v) :: rest else (k0, v0) :: setKey rest k v

/-- The list comprehension of `NetsuiteStream.post_process`
(client.py line 165): the single-field objects collected from every
top-level field of `row` whose name starts with `p`, in row order. -/
def customBucket (p : String) (row : Record) : JVal :=
  JVal.arr ((row.filter (fun kv => strStarts kv.1 p)).map (fun kv => JVal.obj [kv]))

/-- The row after the conditional mutation in `NetsuiteStream.post_process`
(client.py lines 164-165): when the stream attribute
`custom_attribute_prefix` (passed here explicitly as `customAttr`) is
truthy — a non-None, non-empty string — the collected bucket is assigned
to the field named after it; otherwise the row is left untouched. -/
def foldCustomFields (customAttr : Option String) (row : Record) : Record :=
  match customAttr with
  | some p => if p = "" then row else setKey row p (customBucket p row)
  | none => row

/-- Embeds `NetsuiteStream.post_process` (client.py lines 142-166).
The method conditionally folds the custom fields into the bucket and then
returns the row itself; its declared return type is `dict | None`, so the
result is wrapped in an option, and the implementation never produces
`none`. -/
def post_process (customAttr : Option String) (row : Record) : Option Record :=
  some (foldCustomFields customAttr row)

/-- Body of one list-endpoint response page, as consumed by the code:
`hasMore`, `offset` and `count` drive pagination
(streams.py lines 49-53), and `items` — absent (`none`) on error payloads
such as an HTTP 400 body — holds the index records. -/
structure ListBody where
  items : Option (List Record)
  hasMore : Bool
  offset : Int
  count : Int

/-- Embeds `NetsuiteRESTBaseStream.get_next_page_token`
(streams.py lines 35-53): starts from `None`, and replaces it with
`offset + count` exactly when the body's `hasMore` is true. The previous
token is an unused parameter of the source method. -/
def get_next_page_token (response : ListBody) (previous_token : Option Int) : Option Int :=
  if response.hasMore then some (response.offset + response.count) else none

/-- Record extraction for list pages, per the configured
`records_jsonpath = "$.items[*]"` (streams.py line 24) under standard
jsonpath semantics: each element of the `items` array is one record, and a
body with no `items` key yields no matches at all. -/
def parse_response (response : ListBody) : List Record :=
  response.items.getD []

/-- A URL query-parameter value: integer or string. -/
inductive ParamVal where
  | int : Int → ParamVal
  | str : String → ParamVal

/-- A calendar date, the part of the starting timestamp consumed by
`strftime` in `get_url_params`. -/
structure Date where
  day : Nat
  month : Nat
  year : Nat

/-- Two-digit zero padding, as produced by the strftime directives
for day and month. -/
def pad2 (n : Nat) : String :=
  if n < 10 then "0" ++ toString n else toString n

/-- Python `start_date.strftime("%d/%m/%Y")` (streams.py line 74):
zero-padded day, slash, zero-padded month, slash, year. -/
def strftimeDMY (d : Date) : String :=
  pad2 d.day ++ "/" ++ pad2 d.month ++ "/" ++ toString d.year

/-- Embeds `NetsuiteRESTBaseStream.get_url_params`
(streams.py lines 55-78). The dict starts with `limit` at 1000; when
the stream attribute `replication_key` is truthy the incremental filter
clause is added under `q`, with the starting timestamp (the cursor
returned by `get_starting_timestamp`, passed here explicitly as
`start_date`) formatted day/month/year; when `next_page_token` is truthy
— in Python, non-None and nonzero — it is added under `offset`.
Insertion order of the Python dict is preserved. -/
def get_url_params (replication_key : Option String) (start_date : Date)
    (next_page_token : Option Int) : List (String × ParamVal) :=
  let params : List (String × ParamVal) := [("limit", ParamVal.int 1000)]
  let params :=
    match replication_key with
    | some k =>
        if k = "" then params
        else params ++ [("q", ParamVal.str (k ++ " AFTER \"" ++ strftimeDMY start_date ++ "\""))]
    | none => params
  match next_page_token with
  | some t => if t = 0 then params else params ++ [("offset", ParamVal.int t)]
  | none => params

/-- Outcome of `validate_response`: returning normally, raising
`RetriableAPIError`, or raising `FatalAPIError`. -/
inductive ApiOutcome where
  | ok
  | retriable
  | fatal
  deriving DecidableEq

/-- Python `max(HTTPStatus)`: the largest member of `http.HTTPStatus`,
namely 511 (NETWORK_AUTHENTICATION_REQUIRED). -/
def maxHTTPStatus : Nat := 511

/-- Embeds `NetsuiteStream.validate_response` (client.py lines 90-140).
Status 400 returns early (records not found); then a status in
`extra_retry_statuses` or between INTERNAL_SERVER_ERROR (500) and
`max(HTTPStatus)` (511) raises `RetriableAPIError`; then a status between
BAD_REQUEST (400) and 500 (exclusive) raises `FatalAPIError`; anything
else returns normally. -/
def validate_response (extra_retry_statuses : List Nat) (status_code : Nat) : ApiOutcome :=
  if status_code = 400 then ApiOutcome.ok
  else if status_code ∈ extra_retry_statuses ∨ (500 ≤ status_code ∧ status_code ≤ maxHTTPStatus)
    then ApiOutcome.retriable
  else if 400 ≤ status_code ∧ status_code < 500 then ApiOutcome.fatal
  else ApiOutcome.ok

/-- Embeds `NetsuiteRESTBaseStream.get_records` (streams.py lines 80-100),
instrumented with the ids of the detail requests it issues. For each index
record yielded by `request_records` the loop copies the record's `id`
field into the context and instantiates the substream, whose
`request_records` issues exactly one GET to the per-id detail path: the
substream inherits the base `get_next_page_token` (client.py lines 74-88),
which always returns None, so exactly one page is fetched, and its
`records_jsonpath = "$"` parses the body as a single record. Index ids are
integers per the base stream schema; `ids` is the sequence of `id` fields
of the index records, in yield order; `fetchDetail` is the detail body the
API returns for an id. The first component is the sequence of emitted
records (a record transformed to `none` by `post_process` is skipped); the
second is the sequence of ids the detail requests were issued for, in
order. -/
def get_records (fetchDetail : Int → Record) (customAttr : Option String) :
    List Int → List Record × List Int
  | [] => ([], [])
  | i :: rest =>
      let detail := fetchDetail i
      let tail := get_records fetchDetail customAttr rest
      match post_process customAttr detail with
      | none => (tail.1, i :: tail.2)
      | some t => (t :: tail.1, i :: tail.2)

/-- A detail substream class as declared in streams.py: name, path
template and custom-attribute field marker. -/
structure SubStreamDef where
  name : String
  path : String
  customAttr : Option String

/-- A top-level stream class as declared in streams.py: name, list path,
replication key and its detail substream. -/
structure StreamDef where
  name : String
  path : String
  replication_key : Option String
  substream : SubStreamDef

/-- CustomersSubStream (streams.py lines 264-270). -/
def CustomersSubStream : SubStreamDef :=
  ⟨"_customers", "/customer/{id}", some "custentity"⟩

/-- CustomersStream (streams.py lines 273-279). -/
def CustomersStream : StreamDef :=
  ⟨"customers", "/customer", some "lastModifiedDate", CustomersSubStream⟩

/-- InventoryItemsSubStream (streams.py lines 438-444). -/
def InventoryItemsSubStream : SubStreamDef :=
  ⟨"_inventory_items", "/inventoryItem/{id}", some "custitem"⟩

/-- InventoryItemsStream (streams.py lines 447-453). -/
def InventoryItemsStream : StreamDef :=
  ⟨"inventory_items", "/inventoryItem", some "lastModifiedDate", InventoryItemsSubStream⟩

/-- PurchaseOrdersSubStream (streams.py lines 565-571). -/
def PurchaseOrdersSubStream : SubStreamDef :=
  ⟨"_purchase_orders", "/purchaseOrder/{id}", some "custbody"⟩

/-- PurchaseOrdersStream (streams.py lines 574-580). -/
def PurchaseOrdersStream : StreamDef :=
  ⟨"purchase_orders", "/purchaseOrder", some "lastModifiedDate", PurchaseOrdersSubStream⟩

/-- SalesOrdersSubStream (streams.py lines 676-682). -/
def SalesOrdersSubStream : SubStreamDef :=
  ⟨"_sales_orders", "/salesOrder/{id}", some "custbody"⟩

/-- SalesOrdersStream (streams.py lines 685-691). -/
def SalesOrdersStream : StreamDef :=
  ⟨"sales_orders", "/salesOrder", some "lastModifiedDate", SalesOrdersSubStream⟩

/-- Embeds `TapNetsuite.discover_streams` (tap.py lines 52-62): the list
of stream instances the tap registers. -/
def discover_streams : List StreamDef :=
  [CustomersStream, InventoryItemsStream, PurchaseOrdersStream]

/-- Concrete detail-fetch function used to instantiate the request
invariant: returns a body carrying the requested id. -/
def sampleFetch : Int → Record :=
  fun i => [("id", JVal.num i)]

/-- A list is a prefix of itself under the boolean prefix test. -/
theorem isPrefixOf_self {α : Type} [BEq α] [LawfulBEq α] : (l : List α) → List.isPrefixOf l l = true
  | [] => rfl
  | _ :: t => by simp [List.isPrefixOf, isPrefixOf_self t]

/-- Every string starts with itself. -/
theorem strStarts_self (s : String) : strStarts s s = true :=
  isPrefixOf_self s.data

/-- Looking up a key just assigned by `setKey` returns the assigned value. -/
theorem lookupKey_setKey_self (l : Record) (k : String) (v : JVal) :
    lookupKey k (setKey l k v) = some v := by
  induction l with
  | nil => simp [setKey, lookupKey]
  | cons kv rest ih =>
      obtain ⟨k0, v0⟩ := kv
      by_cases h : k0 = k
      · simp [setKey, h, lookupKey]
      · simp [setKey, h, lookupKey, ih]

/-- Assigning an absent key appends the new entry at the end of the dict. -/
theorem setKey_of_lookupKey_none (l : Record) (k : String) (v : JVal)
    (h : lookupKey k l = none) : setKey l k v = l ++ [(k, v)] := by
  induction l with
  | nil => rfl
  | cons kv rest ih =>
      obtain ⟨k0, v0⟩ := kv
      by_cases hk : k0 = k
      · simp [lookupKey, hk] at h
      · simp only [lookupKey, if_neg hk] at h
        simp [setKey, hk, ih h]

/-- Lookup skips over a block of entries that does not contain the key. -/
theorem lookupKey_append_of_none {β : Type} (k : String) (l1 l2 : List (String × β))
    (h : lookupKey k l1 = none) : lookupKey k (l1 ++ l2) = lookupKey k l2 := by
  induction l1 with
  | nil => rfl
  | cons kv rest ih =>
      obtain ⟨k0, v0⟩ := kv
      by_cases hk : k0 = k
      · simp [lookupKey, hk] at h
      · simp only [lookupKey, if_neg hk] at h
        simp [lookupKey, hk, ih h]

/-- The detail requests of a fetch cycle are issued for exactly the index
ids, in order. -/
theorem get_records_trace (f : Int → Record) (c : Option String) :
    (ids : List Int) → (get_records f c ids).2 = ids
  | [] => rfl
  | i :: rest => by
      simp [get_records, post_process, get_records_trace f c rest]

/-- The emitted records of a fetch cycle are exactly the fetched detail
bodies after the custom-field fold, one per index id, in order. -/
theorem get_records_emitted (f : Int → Record) (c : Option String) :
    (ids : List Int) → (get_records f c ids).1
      = ids.map (fun i => foldCustomFields c (f i))
  | [] => rfl
  | i :: rest => by
      simp [get_records, post_process, get_records_emitted f c rest]

/-- Claim C1: for every list-response body exposing hasMore, offset and
count, `get_next_page_token` returns none when hasMore is false, and
returns exactly offset + count when hasMore is true, independent of the
previous token. -/
theorem c1_next_page_token (response : ListBody) (prev : Option Int) :
    (response.hasMore = false → get_next_page_token response prev = none)
    ∧ (response.hasMore = true →
        get_next_page_token response prev = some (response.offset + response.count))
    ∧ ∀ prev2 : Option Int,
        get_next_page_token response prev = get_next_page_token response prev2 := by
  unfold get_next_page_token
  exact ⟨fun h => by simp [h], fun h => by simp [h], fun _ => rfl⟩

/-- Claim C1 witness: concrete pages with hasMore true and false. -/
theorem c1_witness :
    get_next_page_token ⟨none, true, 0, 2⟩ (some 7) = some (0 + 2)
    ∧ get_next_page_token ⟨none, false, 2, 1⟩ (some 7) = none :=
  ⟨(c1_next_page_token ⟨none, true, 0, 2⟩ (some 7)).2.1 rfl,
   (c1_next_page_token ⟨none, false, 2, 1⟩ (some 7)).1 rfl⟩

/-- Claim C2: a stream with a truthy replication key always sends the
incremental filter clause under the q parameter, with the cursor formatted
day/month/year; a stream with no replication key never sends q. -/
theorem c2_replication_filter (k : String) (hk : k ≠ "") (d : Date) (tok : Option Int) :
    lookupKey "q" (get_url_params (some k) d tok)
      = some (ParamVal.str (k ++ " AFTER \"" ++ strftimeDMY d ++ "\""))
    ∧ ∀ (d2 : Date) (tok2 : Option Int),
        lookupKey "q" (get_url_params none d2 tok2) = none := by
  constructor
  · unfold get_url_params
    simp only [if_neg hk]
    cases tok with
    | none => simp [lookupKey]
    | some t =>
        by_cases ht : t = 0
        · simp [ht, lookupKey]
        · simp [ht, lookupKey]
  · intro d2 tok2
    unfold get_url_params
    cases tok2 with
    | none => simp [lookupKey]
    | some t => by_cases ht : t = 0 <;> simp [ht, lookupKey]

/-- Claim C2 witness: the customers stream's replication key and a concrete
cursor date. -/
theorem c2_witness :
    ("lastModifiedDate" : String) ≠ ""
    ∧ lookupKey "q" (get_url_params (some "lastModifiedDate") ⟨14, 3, 2023⟩ none)
        = some (ParamVal.str ("lastModifiedDate" ++ " AFTER \"" ++ strftimeDMY ⟨14, 3, 2023⟩ ++ "\"")) :=
  ⟨by decide,
   (c2_replication_filter "lastModifiedDate" (by decide) ⟨14, 3, 2023⟩ none).1⟩

/-- Claim C3 counterexample: the tap does not discover a sales-orders
stream — `discover_streams` registers no stream with the name of the
(fully defined) `SalesOrdersStream` class. -/
theorem c3_counterexample :
    SalesOrdersStream.name ∉ List.map StreamDef.name discover_streams := by
  decide

/-- Claim C3 (amended): the discovered streams are exactly the customers,
inventory-items and purchase-orders streams; the sales-orders stream class
is defined with the name sales_orders but is not discovered. -/
theorem c3_discovered_streams :
    List.map StreamDef.name discover_streams
      = ["customers", "inventory_items", "purchase_orders"]
    ∧ SalesOrdersStream.name = "sales_orders" := by
  exact ⟨rfl, rfl⟩

/-- Claim C4 counterexample: re-folding an already-folded record changes
it — the second application of `post_process` captures the bucket field
itself (its name starts with the stream's own custom-field marker). -/
theorem c4_counterexample :
    (post_process (some "custitem") [("custitem_foo", JVal.str "bar")]).bind
        (post_process (some "custitem"))
      ≠ post_process (some "custitem") [("custitem_foo", JVal.str "bar")] := by
  simp [post_process, foldCustomFields, customBucket, setKey, lookupKey, strStarts]

/-- Claim C4 (amended): for every stream with a truthy custom-field marker
and every record not already holding a field named exactly the marker,
applying `post_process` twice differs from applying it once: the second
application folds the bucket field itself into the bucket, so the
transform is never idempotent on such records. -/
theorem c4_refold_changes (p : String) (row : Record) (hp : p ≠ "")
    (hrow : lookupKey p row = none) :
    (post_process (some p) row).bind (post_process (some p))
      ≠ post_process (some p) row := by
  intro heq
  have h1 : post_process (some p) row = some (setKey row p (customBucket p row)) := by
    simp [post_process, foldCustomFields, hp]
  have hr1eq : setKey row p (customBucket p row) = row ++ [(p, customBucket p row)] :=
    setKey_of_lookupKey_none row p _ hrow
  have h2 : (post_process (some p) row).bind (post_process (some p))
      = some (setKey (setKey row p (customBucket p row)) p
          (customBucket p (setKey row p (customBucket p row)))) := by
    rw [h1]
    simp [post_process, foldCustomFields, hp]
  rw [h2, h1] at heq
  have heq2 : setKey (setKey row p (customBucket p row)) p
      (customBucket p (setKey row p (customBucket p row)))
      = setKey row p (customBucket p row) := Option.some.inj heq
  have hl : lookupKey p (setKey (setKey row p (customBucket p row)) p
      (customBucket p (setKey row p (customBucket p row))))
      = some (customBucket p (setKey row p (customBucket p row))) :=
    lookupKey_setKey_self _ _ _
  rw [heq2] at hl
  have hl2 : lookupKey p (setKey row p (customBucket p row))
      = some (customBucket p row) := lookupKey_setKey_self _ _ _
  rw [hl2] at hl
  have hcb : customBucket p (setKey row p (customBucket p row)) = customBucket p row :=
    Option.some.inj hl.symm
  rw [hr1eq] at hcb
  unfold customBucket at hcb
  rw [List.filter_append] at hcb
  simp only [List.filter_cons, strStarts_self, List.filter_nil, List.map_append,
    if_pos, List.map_cons, List.map_nil, JVal.arr.injEq] at hcb
  have hlen := congrArg List.length hcb
  simp at hlen

/-- Claim C4 witness: a concrete record with one custom field under the
customers marker. -/
theorem c4_witness :
    ("custentity" : String) ≠ ""
    ∧ lookupKey "custentity" [("custentity_a", JVal.str "x")] = none
    ∧ (post_process (some "custentity") [("custentity_a", JVal.str "x")]).bind
          (post_process (some "custentity"))
        ≠ post_process (some "custentity") [("custentity_a", JVal.str "x")] :=
  ⟨by decide, rfl,
   c4_refold_changes "custentity" [("custentity_a", JVal.str "x")] (by decide) rfl⟩

/-- Claim C5 counterexample: HTTP 512 lies in the 5xx range claimed
retriable, yet `validate_response` raises nothing for it — the code's
upper bound is max(HTTPStatus) = 511, not 599. -/
theorem c5_counterexample :
    (500 ≤ 512 ∧ 512 ≤ 599)
    ∧ validate_response [] 512 = ApiOutcome.ok
    ∧ validate_response [] 512 ≠ ApiOutcome.retriable := by
  decide

/-- Claim C5 (amended): for every response whose status is between 500 and
max(HTTPStatus) = 511, or whose status other than 400 is listed in
extra_retry_statuses, `validate_response` raises RetriableAPIError;
statuses 512-599 and a listed 400 are not covered. -/
theorem c5_retriable_statuses (extra : List Nat) (code : Nat) (h400 : code ≠ 400)
    (h : code ∈ extra ∨ (500 ≤ code ∧ code ≤ maxHTTPStatus)) :
    validate_response extra code = ApiOutcome.retriable := by
  unfold validate_response
  rw [if_neg h400, if_pos h]

/-- Claim C5 witness: a 503 with 429 configured as retriable. -/
theorem c5_witness :
    (503 ≠ 400 ∧ (500 ≤ 503 ∧ 503 ≤ maxHTTPStatus))
    ∧ validate_response [429] 503 = ApiOutcome.retriable :=
  ⟨by decide,
   c5_retriable_statuses [429] 503 (by decide) (Or.inr (by decide))⟩

/-- Claim C6: HTTP 400 on a list request returns normally from
`validate_response` (whatever the configured retry statuses), and a body
with no items key yields zero index records; a status in 401-499 not
listed in extra_retry_statuses raises FatalAPIError. -/
theorem c6_error_classification (extra : List Nat) (code : Nat) (body : ListBody) :
    validate_response extra 400 = ApiOutcome.ok
    ∧ (body.items = none → parse_response body = [])
    ∧ (401 ≤ code → code ≤ 499 → code ∉ extra →
        validate_response extra code = ApiOutcome.fatal) := by
  refine ⟨?_, ?_, ?_⟩
  · unfold validate_response
    simp
  · intro h
    unfold parse_response
    rw [h]
    rfl
  · intro h1 h2 h3
    unfold validate_response
    rw [if_neg (by omega)]
    rw [if_neg ?_, if_pos (by omega)]
    rintro (hc | ⟨hc, _⟩)
    · exact h3 hc
    · omega

/-- Claim C6 witness: a 400 passes, an items-less body parses to no
records, and a 404 not configured as retriable is fatal. -/
theorem c6_witness :
    validate_response [429] 400 = ApiOutcome.ok
    ∧ parse_response ⟨none, false, 0, 0⟩ = []
    ∧ validate_response [429] 404 = ApiOutcome.fatal := by
  have h := c6_error_classification [429] 404 ⟨none, false, 0, 0⟩
  exact ⟨h.1, h.2.1 rfl, h.2.2 (by decide) (by decide) (by decide)⟩

/-- Claim C7 counterexample: the page token 0 is present (non-None) yet
`get_url_params` sends no offset parameter — the code tests Python
truthiness, and 0 is falsy. -/
theorem c7_counterexample :
    lookupKey "offset" (get_url_params none ⟨1, 1, 2020⟩ (some 0)) = none
    ∧ lookupKey "offset" (get_url_params none ⟨1, 1, 2020⟩ (some 0))
        ≠ some (ParamVal.int 0) := by
  refine ⟨rfl, ?_⟩
  intro h
  simp [get_url_params, lookupKey] at h

/-- Claim C7 (amended): every parameter dict maps limit to 1000; a truthy
(non-None, nonzero) page token is sent as the offset parameter; a None or
zero token sends no offset key. -/
theorem c7_url_params (rk : Option String) (d : Date) (tok : Option Int) (t : Int) :
    lookupKey "limit" (get_url_params rk d tok) = some (ParamVal.int 1000)
    ∧ (tok = some t → t ≠ 0 →
        lookupKey "offset" (get_url_params rk d tok) = some (ParamVal.int t))
    ∧ (tok = none → lookupKey "offset" (get_url_params rk d tok) = none)
    ∧ (tok = some 0 → lookupKey "offset" (get_url_params rk d tok) = none) := by
  unfold get_url_params
  rcases rk with _ | k
  · refine ⟨?_, ?_, ?_, ?_⟩
    · cases tok with
      | none => simp [lookupKey]
      | some u => by_cases hu : u = 0 <;> simp [hu, lookupKey]
    · rintro rfl ht
      simp [ht, lookupKey]
    · rintro rfl
      simp [lookupKey]
    · rintro rfl
      simp [lookupKey]
  · by_cases hk : k = "" <;>
    · refine ⟨?_, ?_, ?_, ?_⟩
      · cases tok with
        | none => simp [hk, lookupKey]
        | some u => by_cases hu : u = 0 <;> simp [hk, hu, lookupKey]
      · rintro rfl ht
        simp [hk, ht, lookupKey]
      · rintro rfl
        simp [hk, lookupKey]
      · rintro rfl
        simp [hk, lookupKey]

/-- Claim C7 witness: a nonzero token is sent as offset, a None token is
not. -/
theorem c7_witness :
    lookupKey "limit" (get_url_params none ⟨2, 1, 2021⟩ (some 5)) = some (ParamVal.int 1000)
    ∧ lookupKey "offset" (get_url_params none ⟨2, 1, 2021⟩ (some 5)) = some (ParamVal.int 5)
    ∧ lookupKey "offset" (get_url_params none ⟨2, 1, 2021⟩ none) = none := by
  have h := c7_url_params none ⟨2, 1, 2021⟩ (some 5) 5
  have h2 := c7_url_params none ⟨2, 1, 2021⟩ none 5
  exact ⟨h.1, h.2.1 rfl (by decide), h2.2.2.1 rfl⟩

/-- Claim C8 counterexample: on a record that already holds a top-level
field named exactly the marker, `post_process` overwrites that field with
the bucket instead of leaving it unchanged. -/
theorem c8_counterexample :
    lookupKey "custitem"
        ((post_process (some "custitem") [("custitem", JVal.str "x")]).getD [])
      ≠ some (JVal.str "x") := by
  simp [post_process, foldCustomFields, customBucket, setKey, lookupKey, strStarts]

/-- Claim C8 (amended): for every stream with a truthy custom-field marker
and every record with no top-level field named exactly the marker,
`post_process` appends one array-valued field named the marker whose
entries are the one-field objects of the marker-prefixed fields in row
order, leaving every original field present and unchanged. -/
theorem c8_fold_shape (p : String) (row : Record) (hp : p ≠ "")
    (hrow : lookupKey p row = none) :
    post_process (some p) row
      = some (row ++ [(p, JVal.arr ((row.filter (fun kv => strStarts kv.1 p)).map
          (fun kv => JVal.obj [kv])))]) := by
  simp only [post_process, foldCustomFields, if_neg hp, Option.some.injEq]
  rw [setKey_of_lookupKey_none row p _ hrow]
  rfl

/-- Claim C8 witness: the scenario-3 detail record under the custitem
marker. -/
theorem c8_witness :
    ("custitem" : String) ≠ ""
    ∧ lookupKey "custitem"
        [("id", JVal.str "5"), ("custitem_foo", JVal.str "bar"), ("displayName", JVal.str "Widget")]
        = none
    ∧ post_process (some "custitem")
        [("id", JVal.str "5"), ("custitem_foo", JVal.str "bar"), ("displayName", JVal.str "Widget")]
        = some ([("id", JVal.str "5"), ("custitem_foo", JVal.str "bar"), ("displayName", JVal.str "Widget")]
            ++ [("custitem", JVal.arr [JVal.obj [("custitem_foo", JVal.str "bar")]])]) :=
  ⟨by decide, rfl,
   by exact c8_fold_shape "custitem" [("id", JVal.str "5"), ("custitem_foo", JVal.str "bar"), ("displayName", JVal.str "Widget")] (by decide) rfl⟩

/-- Claim C9: in one fetch cycle with pairwise distinct index ids, the
detail requests are issued for exactly the index ids in index order, one
request per index record, no request for an id outside the index and no id
requested twice, and every emitted record is the post-processed detail
body of an index id. -/
theorem c9_detail_requests (f : Int → Record) (c : Option String) (ids : List Int)
    (hnodup : ids.Nodup) :
    (get_records f c ids).2 = ids
    ∧ (∀ i ∈ ids, (get_records f c ids).2.count i = 1)
    ∧ (∀ i, i ∉ ids → (get_records f c ids).2.count i = 0)
    ∧ (∀ r ∈ (get_records f c ids).1, ∃ i ∈ ids, post_process c (f i) = some r) := by
  have htr := get_records_trace f c ids
  refine ⟨htr, ?_, ?_, ?_⟩
  · intro i hi
    rw [htr]
    exact List.count_eq_one_of_mem hnodup hi
  · intro i hi
    rw [htr]
    exact List.count_eq_zero.mpr hi
  · intro r hr
    rw [get_records_emitted f c ids] at hr
    obtain ⟨i, hi, hfi⟩ := List.mem_map.mp hr
    exact ⟨i, hi, by simp [post_process, hfi]⟩

/-- Claim C9 witness: a two-page index cycle with distinct ids under the
purchase-orders marker. -/
theorem c9_witness :
    List.Nodup [1, 2]
    ∧ ((get_records sampleFetch (some "custbody") [1, 2]).2 = [1, 2]
      ∧ (∀ i ∈ [1, 2], (get_records sampleFetch (some "custbody") [1, 2]).2.count i = 1)
      ∧ (∀ i, i ∉ ([1, 2] : List Int) →
          (get_records sampleFetch (some "custbody") [1, 2]).2.count i = 0)
      ∧ (∀ r ∈ (get_records sampleFetch (some "custbody") [1, 2]).1,
          ∃ i ∈ [1, 2], post_process (some "custbody") (sampleFetch i) = some r)) :=
  ⟨by decide, c9_detail_requests sampleFetch (some "custbody") [1, 2] (by decide)⟩

/-- Claim C10: `post_process` never returns None, so the filter branch of
`get_records` is unreachable and every fetched detail record is emitted
(after the custom-field fold), one per index id, in order. -/
theorem c10_no_filtered_records (customAttr : Option String) :
    (∀ row : Record, (post_process customAttr row).isSome = true)
    ∧ ∀ (fetchDetail : Int → Record) (ids : List Int),
        (get_records fetchDetail customAttr ids).1
          = ids.map (fun i => foldCustomFields customAttr (fetchDetail i)) :=
  ⟨fun _ => rfl, fun f ids => get_records_emitted f customAttr ids⟩

end TapNetsuite
